import Mathlib

/-!
Shallow embedding of the ALS (ambient light sensor) brightness filter module
of mce (src/modules/filter-brightness-als.c, src/mce-hal.c), together with
theorems checking the natural-language specification against it.

The embedding models C `gint` as `Int`. Arrays indexed within bounds are
modelled as `List` with a default-valued lookup (`getD`); every in-bounds C
access corresponds to an in-bounds `getD`. Hardware reads, D-Bus senders and
sysinfo blobs are inputs to the step functions; side effects (sysfs writes,
datapipe trigger invocations) are returned as explicit effect lists.
-/

/-- Result record of `filter_data`: brightness percentage return value, the
new level stored through the in-out `level` pointer, and the `lower`/`upper`
interrupt thresholds stored through the out pointers. -/
structure FilterResult where
  brightness : Int
  level : Int
  lower : Int
  upper : Int
deriving DecidableEq, Repr

/-- ALS profile: the `range` rows (lower and upper bound pairs) and the
`value` brightness table of `als_profile_struct`.  The C struct uses fixed
side `ALS_RANGES` arrays; here the array capacity that the scan loop of
`filter_data` runs over is passed separately as `n`. -/
structure als_profile_struct where
  range : List (Int × Int)
  value : List Int
deriving DecidableEq, Repr

/-- Array access `profiles[profile].range[i]` (in-bounds in C whenever used). -/
def rangeOf (p : als_profile_struct) (i : Nat) : Int × Int := p.range.getD i (0, 0)

/-- Array access `profiles[profile].value[i]` (in-bounds in C whenever used). -/
def valueOf (p : als_profile_struct) (i : Nat) : Int := p.value.getD i 0

/-- Clamp of the incoming `*level` at the top of `filter_data`:
`if (tmp == -1) tmp = 0; else if (tmp > ALS_RANGES) tmp = ALS_RANGES;`. -/
def clampLevel (n : Nat) (level : Int) : Int :=
  if level = -1 then 0 else if level > (n : Int) then (n : Int) else level

/-- The scan loop of `filter_data`:
`for (i = 0; i < ALS_RANGES; i++) { *level = i; if (range[i][0] == -1) break;
if (lux < range[i][(((i + 1) - tmp) > 0) ? 1 : 0]) break; }`.
`fuel` is the number of remaining iterations (initially `n`, so the loop
stops when `i` reaches `n`).  Returns the final `i` and the final `*level`. -/
def filter_scanAux (p : als_profile_struct) (tmp lux : Int) :
    Nat → Nat → Int → Nat × Int
  | 0, i, level => (i, level)
  | fuel + 1, i, level =>
    let level := (i : Int)
    if (rangeOf p i).1 = -1 then (i, level)
    else if lux < (if (i : Int) + 1 - tmp > 0 then (rangeOf p i).2 else (rangeOf p i).1)
      then (i, level)
    else filter_scanAux p tmp lux fuel (i + 1) level

/-- Embedding of `filter_data` (src/modules/filter-brightness-als.c:460-494).
`profiles` is the profile array, `profile` the profile index, `n` the
`ALS_RANGES` constant, `lux` the input lux, `level` the incoming `*level`. -/
def filter_data (profiles : List als_profile_struct) (profile : Nat) (n : Nat)
    (lux : Int) (level : Int) : FilterResult :=
  let p := profiles.getD profile ⟨[], []⟩
  let tmp := clampLevel n level
  let r := filter_scanAux p tmp lux n 0 level
  let i := r.1
  let newLevel := r.2
  let lower : Int := if i = 0 then 0 else (rangeOf p (i - 1)).1
  let upper : Int :=
    if i ≥ n then 65535
    else if (rangeOf p i).2 = -1 then 65535 else (rangeOf p i).2
  { brightness := valueOf p newLevel.toNat, level := newLevel,
    lower := lower, upper := upper }

/-- The boundary the scan loop of `filter_data` compares `lux` against at
scan index `i`, written from the (amended) spec's words: the row's lower
boundary when `i` is strictly below the clamped current level, else the
row's upper boundary. -/
def chosenBoundary (p : als_profile_struct) (tmp : Int) (i : Nat) : Int :=
  if (i : Int) < tmp then (rangeOf p i).1 else (rangeOf p i).2

/-- A scan index at which the scan loop of `filter_data` stops, written from
the (amended) spec's words: the row is the sentinel (`low = -1`), or its
chosen boundary exceeds `lux`. -/
def scanStop (p : als_profile_struct) (tmp lux : Int) (i : Nat) : Prop :=
  (rangeOf p i).1 = -1 ∨ lux < chosenBoundary p tmp i

instance (p : als_profile_struct) (tmp lux : Int) (i : Nat) :
    Decidable (scanStop p tmp lux i) := by
  unfold scanStop; infer_instance

/-- The boundary chosen per the claim's original words: the row's lower
boundary when `i` is at or below the current level, else the upper one. -/
def claimChosenBoundary (p : als_profile_struct) (tmp : Int) (i : Nat) : Int :=
  if (i : Int) ≤ tmp then (rangeOf p i).1 else (rangeOf p i).2

/-- Scan loop lemma: starting at `i` with no stop index in `[i, m)` and a
stop at `m` (within fuel), the loop breaks exactly at `m` with `*level = m`. -/
theorem filter_scanAux_eq (p : als_profile_struct) (tmp lux : Int) (m : Nat) :
    ∀ fuel i level, (∀ j, i ≤ j → j < m → ¬ scanStop p tmp lux j) →
    scanStop p tmp lux m → i ≤ m → m < i + fuel →
    filter_scanAux p tmp lux fuel i level = (m, (m : Int)) := by
  intro fuel
  induction fuel with
  | zero => intro i level _ _ him hmf; omega
  | succ fuel ih =>
    intro i level hnone hm him hmf
    unfold filter_scanAux
    rcases Nat.eq_or_lt_of_le him with heq | hlt
    · subst heq
      by_cases hsent : (rangeOf p i).1 = -1
      · simp [hsent]
      rcases hm with hsent2 | hbound
      · exact absurd hsent2 hsent
      rw [if_neg hsent, if_pos]
      unfold chosenBoundary at hbound
      by_cases hc : (i : Int) < tmp
      · rw [if_pos hc] at hbound
        rw [if_neg (by omega)]
        exact hbound
      · rw [if_neg hc] at hbound
        rw [if_pos (by omega)]
        exact hbound
    · have hni : ¬ scanStop p tmp lux i := hnone i le_rfl hlt
      have hsent : ¬ (rangeOf p i).1 = -1 := fun h => hni (Or.inl h)
      have hbound : ¬ lux <
          (if (i : Int) + 1 - tmp > 0 then (rangeOf p i).2 else (rangeOf p i).1) := by
        intro hb
        apply hni
        refine Or.inr ?_
        unfold chosenBoundary
        by_cases hc : (i : Int) < tmp
        · rw [if_neg (by omega)] at hb
          rw [if_pos hc]
          exact hb
        · rw [if_pos (by omega)] at hb
          rw [if_neg hc]
          exact hb
      rw [if_neg hsent, if_neg hbound]
      exact ih (i + 1) (i : Int) (fun j h1 h2 => hnone j (by omega) h2) hm (by omega)
        (by omega)

/-- C1 (corrected): for a profile whose scan has its first stop index `m`
within bounds (guaranteed by a valid sentinel row), `filter_data` returns
level `m`, brightness `value[m]`, lower bound `range[m-1][0]` (0 for row 0),
and upper bound `range[m][1]` (65535 when that boundary is the -1 sentinel).
A stop index is a sentinel row or a row whose chosen boundary exceeds `lux`,
the chosen boundary being the lower one when the scan index is strictly
below the clamped current level, else the upper one. -/
theorem filter_data_first_stop (p : als_profile_struct) (n : Nat)
    (lux level : Int) (m : Nat)
    (hmn : m < n)
    (hstop : scanStop p (clampLevel n level) lux m)
    (hleast : ∀ j, j < m → ¬ scanStop p (clampLevel n level) lux j) :
    filter_data [p] 0 n lux level =
      { brightness := valueOf p m, level := (m : Int),
        lower := if m = 0 then 0 else (rangeOf p (m - 1)).1,
        upper := if (rangeOf p m).2 = -1 then 65535 else (rangeOf p m).2 } := by
  have hscan : filter_scanAux p (clampLevel n level) lux n 0 level = (m, (m : Int)) :=
    filter_scanAux_eq p (clampLevel n level) lux m n 0 level
      (fun j _ h2 => hleast j h2) hstop (Nat.zero_le m) (by omega)
  have : ¬ (n ≤ m) := by omega
  simp only [filter_data, List.getD_cons_zero]
  rw [hscan]
  simp [this]

/-- Profile used as the C1 counterexample: rows (10,20) and (30,40) with a
terminating sentinel, brightness values 10/50/90, `ALS_RANGES = 3`. -/
def pC1 : als_profile_struct := ⟨[(10, 20), (30, 40), (-1, -1)], [10, 50, 90]⟩

/-- C1 is false as stated: with current level 1 and lux 35, `filter_data`
keeps level 1 (the scan at index 1 compares against the row's *upper*
boundary 40), yet per the claim's rule the boundary chosen at scan index 1
(at or below the level, hence the *lower* boundary 30) does not exceed 35 —
so the matched row is not "the first row whose chosen boundary exceeds lux"
under the claim's boundary selection. -/
theorem filter_data_claim_boundary_false :
    (filter_data [pC1] 0 3 35 1).level = 1 ∧
    ¬ (35 < claimChosenBoundary pC1 (clampLevel 3 1) 1) := by decide

/-- Witness instantiating `filter_data_first_stop`: profile `pC1`, lux 15,
current level 0 — the first stop index is 0 (upper boundary 20 exceeds 15),
giving brightness 10, level 0, band (0, 20). -/
theorem filter_data_first_stop_witness :
    scanStop pC1 (clampLevel 3 0) 15 0 ∧
    filter_data [pC1] 0 3 15 0 =
      { brightness := 10, level := 0, lower := 0, upper := 20 } :=
  ⟨by decide, filter_data_first_stop pC1 3 15 0 0 (by decide) (by decide)
    (fun j hj => absurd hj (Nat.not_lt_zero j))⟩

/-- The profile of the C2 scenario, embedded literally as its three listed
rows `[(0,100,20%), (100,300,50%), (300,-1,90%)]`. -/
def pC2 : als_profile_struct := ⟨[(0, 100), (100, 300), (300, -1)], [20, 50, 90]⟩

/-- C2: evaluating the scenario profile at lux 400 from current level 0
yields new level 2, brightness 90, and threshold band (300, 65535). -/
theorem filter_data_scenario_jump :
    filter_data [pC2] 0 3 400 0 =
      { brightness := 90, level := 2, lower := 300, upper := 65535 } := by decide

/-- A calibration write performed by `calibrate_als`: which calibration sysfs
path (`als_calib0_path` or `als_calib1_path`) and the value written. -/
inductive CalibWrite
  | calib0 (v : Nat)
  | calib1 (v : Nat)
deriving DecidableEq, Repr

/-- Little-endian 32-bit value at the START of the byte list: the effect of
`memcpy(&calibN, tmp, sizeof (guint32))` on the (little-endian) targets this
module runs on.  Note both `memcpy` calls in `calibrate_als` read from `tmp`
itself, i.e. from offset 0. -/
def le32 (bytes : List Nat) : Nat :=
  bytes.getD 0 0 % 256 + 256 * (bytes.getD 1 0 % 256) +
    65536 * (bytes.getD 2 0 % 256) + 16777216 * (bytes.getD 3 0 % 256)

/-- Embedding of `calibrate_als` (src/modules/filter-brightness-als.c:379-446).
`calib0_path`/`calib1_path` tell whether the two calibration sysfs paths are
set; `blob` is the byte array from `get_sysinfo_value` (`none` models a
failed retrieval).  Returns the calibration writes performed; all the other
outcomes of the function are log messages. -/
def calibrate_als (calib0_path calib1_path : Bool) (blob : Option (List Nat)) :
    List CalibWrite :=
  if ¬ calib0_path ∧ ¬ calib1_path then []
  else match blob with
  | none => []
  | some bytes =>
    let len := bytes.length
    if len % 4 ≠ 0 then []
    else
      let count := len / 4
      if count = 0 then []
      else
        let calib1 := if count ≥ 2 then le32 bytes else 0
        let calib0 := le32 bytes
        (if calib0_path then [CalibWrite.calib0 calib0] else []) ++
        (if calib1_path ∧ count > 1 then [CalibWrite.calib1 calib1] else [])

/-- C3 (code bug): on the 8-byte blob holding little-endian values 1 and 2,
`calibrate_als` writes value 1 to BOTH calibration channels — the second
`memcpy` reads from offset 0 of the blob, not offset 4, so the second
little-endian value (2) never reaches the second channel.  The length
handling behaves as claimed: a 12-byte blob writes the same two (first-word)
values, a 3-byte blob and an empty blob write nothing. -/
theorem calibrate_als_second_channel_bug :
    calibrate_als true true (some [1, 0, 0, 0, 2, 0, 0, 0]) =
      [CalibWrite.calib0 1, CalibWrite.calib1 1] ∧
    calibrate_als true true (some [1, 0, 0, 0, 2, 0, 0, 0, 3, 0, 0, 0]) =
      [CalibWrite.calib0 1, CalibWrite.calib1 1] ∧
    calibrate_als true true (some [1, 0, 0]) = [] ∧
    calibrate_als true true (some []) = [] := by decide

/-- Display states from `display_state_t` as used by this module. -/
inductive MceDisplayState
  | undef
  | on
  | dim
  | off
  | lpm_off
  | lpm_on
deriving DecidableEq, Repr

/-- The three brightness consumers whose datapipes this module filters. -/
inductive Consumer
  | display
  | led
  | kbd
deriving DecidableEq, Repr

/-- Observable side effects of the module's callbacks: a write of
`"<lower> <upper>"` to the ALS threshold-range sysfs path, a brightness
datapipe reaching its output triggers with a filtered value, and the colour
phase adjustment sysfs writes. -/
inductive Effect
  | thresholdWrite (lower upper : Int)
  | pipeOutput (c : Consumer) (value : Int)
  | cpaCoeffWrite (coefficients : String)
  | cpaEnableWrite
deriving DecidableEq, Repr

/-- One row of `cpa_profile_struct`: a lux range and the coefficient string
written to the colour phase adjustment sysfs path. -/
structure CpaRow where
  low : Int
  high : Int
  coefficients : String
deriving DecidableEq, Repr

/-- Ambient light sensor types (`als_type_t`). -/
inductive AlsType
  | unset
  | noAls
  | tsl2562
  | tsl2563
  | dipro
  | avago
deriving DecidableEq, Repr

/-- Modelled from the spec: `ALS_DISPLAY_ON_POLL_FREQ` lives in the missing
filter-brightness-als.h header; the exact cadence values are immaterial to
the claims (only equality comparisons between them are used). -/
def ALS_DISPLAY_ON_POLL_FREQ : Int := 1500

/-- Modelled from the spec: `ALS_DISPLAY_DIM_POLL_FREQ` (see
`ALS_DISPLAY_ON_POLL_FREQ`). -/
def ALS_DISPLAY_DIM_POLL_FREQ : Int := 5000

/-- Modelled from the spec: `ALS_DISPLAY_OFF_POLL_FREQ` (see
`ALS_DISPLAY_ON_POLL_FREQ`). -/
def ALS_DISPLAY_OFF_POLL_FREQ : Int := 60000

/-- Modelled from the spec: `MEDIAN_FILTER_WINDOW_SIZE` from the missing
header; the spec only says the window is a fixed small size. -/
def MEDIAN_FILTER_WINDOW_SIZE : Nat := 5

/-- Modelled from the spec: the display brightness setting is 1-5, giving
profile indices `ALS_PROFILE_MINIMUM = 0` .. `ALS_PROFILE_MAXIMUM = 4`. -/
def ALS_PROFILE_MINIMUM : Int := 0

/-- Modelled from the spec: see `ALS_PROFILE_MINIMUM`. -/
def ALS_PROFILE_MAXIMUM : Int := 4

/-- Modelled from the spec: the profile index `ALS_PROFILE_NORMAL` used by
the LED and keyboard filters; its exact value is immaterial. -/
def ALS_PROFILE_NORMAL : Nat := 0

/-- The module's static state (the file-scope statics of
filter-brightness-als.c relevant to the claims).  The two delay-timer
booleans model `brightness_delay_timer_cb_id`: `delay_timer_id_set` is
"the id variable is non-zero" and `delay_timer_scheduled` is "a glib timeout
source is actually armed" (they differ only when the one-shot source
removes itself without the callback clearing the id). -/
structure AlsState where
  als_enabled : Bool
  use_median_filter : Bool
  median_window : List Int
  als_lux : Int
  delayed_lux : Int
  als_ranges : Nat
  display_als_profiles : Option (List als_profile_struct)
  led_als_profiles : Option (List als_profile_struct)
  kbd_als_profiles : Option (List als_profile_struct)
  display_als_level : Int
  led_als_level : Int
  kbd_als_level : Int
  display_brightness_lower : Int
  display_brightness_upper : Int
  led_brightness_lower : Int
  led_brightness_upper : Int
  kbd_brightness_lower : Int
  kbd_brightness_upper : Int
  display_cpa_profiles : Option (List CpaRow)
  display_cpa_enabled : Bool
  display_state : MceDisplayState
  old_display_state : MceDisplayState
  als_poll_interval : Int
  als_poll_timer_active : Bool
  als_iomon_active : Bool
  delay_timer_id_set : Bool
  delay_timer_scheduled : Bool
  als_external_refcount : Nat
  als_owner_monitor_list : List String
  threshold_path_present : Bool
  cached_lower : Int
  cached_upper : Int
  proximity_closed : Bool
  step_down_policy_unblank : Bool
  als_type : AlsType
  display_brightness_setting : Int
  led_brightness_setting : Int
  key_backlight_setting : Int
deriving DecidableEq, Repr

/-- Initial values of the module statics (declarations at the top of
filter-brightness-als.c), with the device-dependent fields (profiles, type,
paths) left at their pre-probe values. -/
def initState : AlsState where
  als_enabled := true
  use_median_filter := false
  median_window := []
  als_lux := -1
  delayed_lux := -1
  als_ranges := 3
  display_als_profiles := none
  led_als_profiles := none
  kbd_als_profiles := none
  display_als_level := -1
  led_als_level := -1
  kbd_als_level := -1
  display_brightness_lower := -1
  display_brightness_upper := -1
  led_brightness_lower := -1
  led_brightness_upper := -1
  kbd_brightness_lower := -1
  kbd_brightness_upper := -1
  display_cpa_profiles := none
  display_cpa_enabled := false
  display_state := MceDisplayState.undef
  old_display_state := MceDisplayState.undef
  als_poll_interval := ALS_DISPLAY_ON_POLL_FREQ
  als_poll_timer_active := false
  als_iomon_active := false
  delay_timer_id_set := false
  delay_timer_scheduled := false
  als_external_refcount := 0
  als_owner_monitor_list := []
  threshold_path_present := false
  cached_lower := -1
  cached_upper := -1
  proximity_closed := false
  step_down_policy_unblank := false
  als_type := AlsType.tsl2563
  display_brightness_setting := 3
  led_brightness_setting := 100
  key_backlight_setting := 100

/-- Insertion of an element into a sorted list (helper for the median). -/
def insertSorted (x : Int) : List Int → List Int
  | [] => [x]
  | y :: ys => if x ≤ y then x :: y :: ys else y :: insertSorted x ys

/-- Insertion sort (helper for the median). -/
def sortInts : List Int → List Int
  | [] => []
  | x :: xs => insertSorted x (sortInts xs)

/-- Modelled from the spec: `median_filter_map` of the missing
median_filter.c — a fixed-size sliding window over the samples whose mapped
output is the median of the window.  The claims only exercise states where
the median filter is disabled, so its numeric behaviour is never relied on. -/
def median_filter_map (window : List Int) (value : Int) : List Int × Int :=
  let w := window ++ [value]
  let w := w.drop (w.length - MEDIAN_FILTER_WINDOW_SIZE)
  (w, (sortInts w).getD (w.length / 2) 0)

/-- Wrapper `als_median_filter_map`: feeds the sample through the median
filter only when `use_median_filter` is set, else passes it through
untouched (and leaves the window untouched). -/
def als_median_filter_map (s : AlsState) (value : Int) : AlsState × Int :=
  if s.use_median_filter then
    let r := median_filter_map s.median_window value
    ({ s with median_window := r.1 }, r.2)
  else (s, value)

/-- Wrapper `als_median_filter_init`: re-initialises the window (modelled
from the spec as clearing it to a zero-filled window) when the median
filter is in use. -/
def als_median_filter_init (s : AlsState) : AlsState :=
  if s.use_median_filter then
    { s with median_window := List.replicate MEDIAN_FILTER_WINDOW_SIZE 0 }
  else s

/-- Embedding of `als_read_value_filtered`
(src/modules/filter-brightness-als.c:642-712).  The hardware read itself is
an input: `raw = none` models a failed or short read, `some lux` the lux
value obtained from the device (already `G_MAXINT` for a saturated Avago
status).  Returns -2 when the ALS is disabled and -1 on a failed read. -/
def als_read_value_filtered (s : AlsState) (raw : Option Int) : AlsState × Int :=
  if ¬ s.als_enabled then (s, -2)
  else match raw with
  | none => (s, -1)
  | some lux => als_median_filter_map s lux

/-- Embedding of `adjust_als_thresholds`
(src/modules/filter-brightness-als.c:724-765), with the static
`cached_lower`/`cached_upper` kept in the state.  Returns the write of
`"<lower> <upper>"` to the threshold-range path, or no write when that path
is absent. -/
def adjust_als_thresholds (s : AlsState) (lower upper : Int) :
    AlsState × List Effect :=
  if ¬ s.threshold_path_present then (s, [])
  else if lower > upper ∨ (lower = upper ∧ lower = 0) then
    (s, [Effect.thresholdWrite 0 0])
  else if lower = upper ∧ lower = -1 then
    if s.cached_lower = -1 then (s, [Effect.thresholdWrite 0 0])
    else (s, [Effect.thresholdWrite s.cached_lower s.cached_upper])
  else if lower = 0 ∧ upper = 65535 then
    (s, [Effect.thresholdWrite lower upper])
  else
    ({ s with cached_lower := lower, cached_upper := upper },
     [Effect.thresholdWrite lower upper])

/-- Embedding of `display_brightness_filter`
(src/modules/filter-brightness-als.c:502-543): returns the updated state
(display level and thresholds) and the filtered brightness value. -/
def display_brightness_filter (s : AlsState) : AlsState × Int :=
  let raw := s.display_brightness_setting - 1
  if s.display_state = MceDisplayState.off ∨
     s.display_state = MceDisplayState.lpm_off ∨
     s.display_state = MceDisplayState.lpm_on then
    (s, 0)
  else
    let raw := if raw < ALS_PROFILE_MINIMUM then ALS_PROFILE_MINIMUM
               else if raw > ALS_PROFILE_MAXIMUM then ALS_PROFILE_MAXIMUM else raw
    match s.display_als_profiles with
    | some profs =>
      if s.als_enabled then
        let r := filter_data profs raw.toNat s.als_ranges s.als_lux
                   s.display_als_level
        ({ s with display_als_level := r.level,
                  display_brightness_lower := r.lower,
                  display_brightness_upper := r.upper }, r.brightness)
      else (s, (raw + 1) * 20)
    | none => (s, (raw + 1) * 20)

/-- Embedding of `led_brightness_filter`
(src/modules/filter-brightness-als.c:551-570). -/
def led_brightness_filter (s : AlsState) : AlsState × Int :=
  match s.led_als_profiles with
  | some profs =>
    if s.als_enabled then
      let r := filter_data profs ALS_PROFILE_NORMAL s.als_ranges s.als_lux
                 s.led_als_level
      ({ s with led_als_level := r.level,
                led_brightness_lower := r.lower,
                led_brightness_upper := r.upper },
       s.led_brightness_setting * r.brightness / 100)
    else (s, s.led_brightness_setting)
  | none => (s, s.led_brightness_setting)

/-- Embedding of `key_backlight_filter`
(src/modules/filter-brightness-als.c:578-597). -/
def key_backlight_filter (s : AlsState) : AlsState × Int :=
  match s.kbd_als_profiles with
  | some profs =>
    if s.als_enabled then
      let r := filter_data profs ALS_PROFILE_NORMAL s.als_ranges s.als_lux
                 s.kbd_als_level
      ({ s with kbd_als_level := r.level,
                kbd_brightness_lower := r.lower,
                kbd_brightness_upper := r.upper },
       s.key_backlight_setting * r.brightness / 100)
    else (s, s.key_backlight_setting)
  | none => (s, s.key_backlight_setting)

/-- The three `execute_datapipe(&..._pipe, NULL, USE_CACHE, DONT_CACHE_INDATA)`
calls re-filtering the brightness pipes, in source order; each pipe's final
value reaches its output triggers. -/
def exec_brightness_pipes (s : AlsState) : AlsState × List Effect :=
  let d := display_brightness_filter s
  let l := led_brightness_filter d.1
  let k := key_backlight_filter l.1
  (k.1, [Effect.pipeOutput Consumer.display d.2,
         Effect.pipeOutput Consumer.led l.2,
         Effect.pipeOutput Consumer.kbd k.2])

/-- The colour-phase-profile scan loop shared by `als_poll_timer_cb` and
`als_iomon_common`: first row (stopping at the `range[0] == -1` sentinel)
whose lux range contains `lux` (an upper bound of -1 meaning open-ended). -/
def cpa_find (lux : Int) : List CpaRow → Option CpaRow
  | [] => none
  | r :: rest =>
    if r.low = -1 then none
    else if lux ≥ r.low ∧ (lux < r.high ∨ r.high = -1) then some r
    else cpa_find lux rest

/-- The colour phase adjustment block shared by `als_poll_timer_cb` and
`als_iomon_common` (writes coefficients for the matching row; the
`display_cpa_enabled` static is never set to TRUE by the source, so the
enable write recurs). -/
def cpa_adjust (s : AlsState) : AlsState × List Effect :=
  match s.display_cpa_profiles with
  | none => (s, [])
  | some rows =>
    match cpa_find s.als_lux rows with
    | none => (s, [])
    | some r =>
      (s, Effect.cpaCoeffWrite r.coefficients ::
          (if ¬ s.display_cpa_enabled then [Effect.cpaEnableWrite] else []))

/-- The union lower threshold: `lower = display_brightness_lower`, then
`MAX` with the LED and keyboard lower thresholds when those profile tables
are configured (src lines 832-839 and 974-981). -/
def merge_lower (s : AlsState) : Int :=
  let lower := s.display_brightness_lower
  let lower := if s.led_als_profiles.isSome then max lower s.led_brightness_lower
               else lower
  if s.kbd_als_profiles.isSome then max lower s.kbd_brightness_lower else lower

/-- The union upper threshold: `upper = display_brightness_upper`, then
`MIN` with the LED and keyboard upper thresholds when those profile tables
are configured (src lines 841-848 and 983-990). -/
def merge_upper (s : AlsState) : Int :=
  let upper := s.display_brightness_upper
  let upper := if s.led_als_profiles.isSome then min upper s.led_brightness_upper
               else upper
  if s.kbd_als_profiles.isSome then min upper s.kbd_brightness_upper else upper

/-- The common tail of `als_poll_timer_cb` and `als_iomon_common` once a new
lux value has been stored in `als_lux` (the block is duplicated verbatim in
the two C functions): re-filter the brightness pipes, adjust the colour
phase coefficients, and — only when the external refcount is zero — write
the merged threshold band. -/
def lux_update_tail (s : AlsState) : AlsState × List Effect :=
  let p := exec_brightness_pipes s
  let c := cpa_adjust p.1
  let lower := merge_lower c.1
  let upper := merge_upper c.1
  if c.1.als_external_refcount = 0 then
    let a := adjust_als_thresholds c.1 lower upper
    (a.1, p.2 ++ c.2 ++ a.2)
  else (c.1, p.2 ++ c.2)

/-- Embedding of `cancel_brightness_delay_timer`
(src/modules/filter-brightness-als.c:1137-1143): removes the glib source and
clears the id only when the id is non-zero. -/
def cancel_brightness_delay_timer (s : AlsState) : AlsState :=
  if s.delay_timer_id_set then
    { s with delay_timer_id_set := false, delay_timer_scheduled := false }
  else s

/-- Embedding of `cancel_als_poll_timer`
(src/modules/filter-brightness-als.c:1066-1079): unregisters the ALS I/O
monitor and removes the poll timer source. -/
def cancel_als_poll_timer (s : AlsState) : AlsState :=
  { s with als_iomon_active := false, als_poll_timer_active := false }

/-- Embedding of `setup_als_poll_timer`
(src/modules/filter-brightness-als.c:1084-1132). -/
def setup_als_poll_timer (s : AlsState) : AlsState :=
  if s.als_poll_interval = 0 then cancel_als_poll_timer s
  else match s.als_type with
  | AlsType.avago => if s.als_iomon_active then s else { s with als_iomon_active := true }
  | AlsType.dipro => if s.als_iomon_active then s else { s with als_iomon_active := true }
  | _ =>
    let s := cancel_als_poll_timer s
    { s with als_poll_timer_active := true }

/-- Embedding of `als_iomon_common`
(src/modules/filter-brightness-als.c:887-1000): the shared handler for a new
raw `lux` sample from the sensor, with `no_delay` set when called back from
the step-down delay timer. -/
def als_iomon_common (s : AlsState) (lux : Int) (no_delay : Bool) :
    AlsState × List Effect :=
  let m := als_median_filter_map s lux
  let s := m.1
  let new_lux := m.2
  if new_lux = -1 ∨ (s.als_lux = new_lux ∧ s.display_brightness_lower ≠ -1) then
    (s, [])
  else if s.proximity_closed then (s, [])
  else if s.als_lux > new_lux then
    if no_delay then
      lux_update_tail { s with delay_timer_id_set := false, als_lux := new_lux }
    else if ¬ s.delay_timer_id_set then
      ({ s with delay_timer_id_set := true, delay_timer_scheduled := true,
                delayed_lux := lux }, [])
    else ({ s with delayed_lux := lux }, [])
  else
    let s := cancel_brightness_delay_timer s
    lux_update_tail { s with als_lux := new_lux }

/-- Embedding of `als_poll_timer_cb`
(src/modules/filter-brightness-als.c:774-861).  `raw` is the hardware read
(see `als_read_value_filtered`); the returned Bool is the glib "keep this
timer" status. -/
def als_poll_timer_cb (s : AlsState) (raw : Option Int) :
    AlsState × List Effect × Bool :=
  let m := als_read_value_filtered s raw
  let s := m.1
  let new_lux := m.2
  if new_lux = -2 then ({ s with als_poll_timer_active := false }, [], false)
  else if new_lux = -1 ∨ (s.als_lux = new_lux ∧ s.display_brightness_lower ≠ -1)
    then (s, [], true)
  else
    let r := lux_update_tail { s with als_lux := new_lux }
    (r.1, r.2, true)

/-- Embedding of `brightness_delay_timer_cb`
(src/modules/filter-brightness-als.c:869-879): runs `als_iomon_common` on
the pending lux value with the delay suppressed; the one-shot source removes
itself (callback returns FALSE), modelled by clearing
`delay_timer_scheduled`. -/
def brightness_delay_timer_cb (s : AlsState) : AlsState × List Effect :=
  let r := als_iomon_common s s.delayed_lux true
  ({ r.1 with delay_timer_scheduled := false }, r.2)

/-- Display states treated as blanked by `display_state_trigger`. -/
def isBlanked (d : MceDisplayState) : Bool :=
  d = MceDisplayState.off ∨ d = MceDisplayState.lpm_off ∨ d = MceDisplayState.lpm_on

/-- Display states treated as unblanked by `display_state_trigger`. -/
def isUnblanked (d : MceDisplayState) : Bool :=
  d = MceDisplayState.on ∨ d = MceDisplayState.dim

/-- Embedding of `display_state_trigger`
(src/modules/filter-brightness-als.c:1150-1233).  `data` is the new display
state; `raw` is the hardware read performed on an unblank transition.  The
`ALS_DISPLAY_OFF_FLUSH_FILTER` conditional block (median re-init on unblank)
is included, as the spec describes it as present. -/
def display_state_trigger (s : AlsState) (data : MceDisplayState)
    (raw : Option Int) : AlsState × List Effect :=
  let old := s.old_display_state
  let s := { s with display_state := data }
  if ¬ s.als_enabled then ({ s with old_display_state := data }, [])
  else
    let old_interval := s.als_poll_interval
    let s := { s with als_poll_interval :=
      match data with
      | MceDisplayState.off => ALS_DISPLAY_OFF_POLL_FREQ
      | MceDisplayState.lpm_off => ALS_DISPLAY_OFF_POLL_FREQ
      | MceDisplayState.lpm_on => ALS_DISPLAY_OFF_POLL_FREQ
      | MceDisplayState.dim => ALS_DISPLAY_DIM_POLL_FREQ
      | _ => ALS_DISPLAY_ON_POLL_FREQ }
    let r :=
      if isBlanked old ∧ (data = MceDisplayState.on ∨ data = MceDisplayState.dim) then
        let s := cancel_als_poll_timer s
        let s := als_median_filter_init s
        let rd := als_read_value_filtered s raw
        let s := rd.1
        let new_lux := rd.2
        let pr :=
          if new_lux ≥ 0 ∧ (s.als_lux ≠ new_lux ∨ s.step_down_policy_unblank) then
            exec_brightness_pipes s
          else (s, [])
        let a := adjust_als_thresholds pr.1 (-1) (-1)
        (a.1, pr.2 ++ a.2)
      else if isUnblanked old ∧ isBlanked data then
        adjust_als_thresholds s 0 65535
      else (s, [])
    let s := r.1
    let s := if s.als_poll_interval ≠ old_interval ∨
                (¬ s.als_poll_timer_active ∧ ¬ s.als_iomon_active)
             then setup_als_poll_timer s else s
    ({ s with old_display_state := data }, r.2)

/-- Modelled from the spec: `mce_dbus_owner_monitor_add` (mce-dbus.c is not
part of the sources).  Per the spec the enable call is idempotent per
requester and bounded by a fixed capacity: an already-monitored sender
returns the unchanged count, an over-capacity add fails with -1 and no
state change, otherwise the sender is added and the new count returned. -/
def mce_dbus_owner_monitor_add (l : List String) (sender : String) (cap : Nat) :
    Int × List String :=
  if sender ∈ l then ((l.length : Int), l)
  else if l.length ≥ cap then (-1, l)
  else (((l.length : Int) + 1), sender :: l)

/-- Modelled from the spec: `mce_dbus_owner_monitor_remove` — removing a
monitored sender returns the new count, removing an unknown sender fails
with -1 and no state change. -/
def mce_dbus_owner_monitor_remove (l : List String) (sender : String) :
    Int × List String :=
  if sender ∈ l then (((l.erase sender).length : Int), l.erase sender)
  else (-1, l)

/-- Embedding of `als_enable_req_dbus_cb`
(src/modules/filter-brightness-als.c:1294-1339).  `sender` is the D-Bus
sender of the request (`none` models a NULL sender).  The D-Bus method
reply is not modelled. -/
def als_enable_req_dbus_cb (s : AlsState) (sender : Option String) :
    AlsState × List Effect :=
  match sender with
  | none => (s, [])
  | some snd =>
    let r := mce_dbus_owner_monitor_add s.als_owner_monitor_list snd 16
    if r.1 = -1 then (s, [])
    else
      let s := { s with als_owner_monitor_list := r.2,
                        als_external_refcount := r.1.toNat }
      if s.als_external_refcount = 1 then adjust_als_thresholds s 0 0
      else (s, [])

/-- Embedding of `als_disable_req_dbus_cb`
(src/modules/filter-brightness-als.c:1347-1393). -/
def als_disable_req_dbus_cb (s : AlsState) (sender : Option String) :
    AlsState × List Effect :=
  match sender with
  | none => (s, [])
  | some snd =>
    let r := mce_dbus_owner_monitor_remove s.als_owner_monitor_list snd
    if r.1 = -1 then (s, [])
    else
      let s := { s with als_owner_monitor_list := r.2,
                        als_external_refcount := r.1.toNat }
      if s.als_external_refcount = 0 then adjust_als_thresholds s (-1) (-1)
      else (s, [])

/-- Embedding of `als_owner_monitor_dbus_cb`
(src/modules/filter-brightness-als.c:1242-1286): a NameOwnerChanged signal
for `old_name` removes that owner's monitor and, when the refcount reaches
zero, issues the restore request. -/
def als_owner_monitor_dbus_cb (s : AlsState) (old_name : String) :
    AlsState × List Effect :=
  let r := mce_dbus_owner_monitor_remove s.als_owner_monitor_list old_name
  if r.1 = -1 then (s, [])
  else
    let s := { s with als_owner_monitor_list := r.2,
                      als_external_refcount := r.1.toNat }
    if s.als_external_refcount = 0 then adjust_als_thresholds s (-1) (-1)
    else (s, [])

/-- State for the C4 counterexample: threshold path present, nothing cached
yet (the initial `cached_lower == -1`). -/
def s4w : AlsState := { initState with threshold_path_present := true }

/-- C4 is false as stated: the band (-1, 5) is written and duly replaces the
cached band, but the following (-1, -1) request writes (0, 0) instead of the
last cached band (-1, 5) — the cache-empty marker `cached_lower == -1`
collides with a cached band whose lower bound is -1. -/
theorem adjust_als_thresholds_restore_false :
    (adjust_als_thresholds s4w (-1) 5).2 = [Effect.thresholdWrite (-1) 5] ∧
    (adjust_als_thresholds s4w (-1) 5).1.cached_lower = -1 ∧
    (adjust_als_thresholds s4w (-1) 5).1.cached_upper = 5 ∧
    (adjust_als_thresholds (adjust_als_thresholds s4w (-1) 5).1 (-1) (-1)).2 =
      [Effect.thresholdWrite 0 0] := by decide

/-- C4 (corrected): whenever the threshold path is present,
`adjust_als_thresholds` performs exactly one write; a written band (0,0) or
(0,65535) never updates the cached band, any other written band equals the
resulting cached band; and a (-1,-1) request writes the last cached band,
or (0,0) if no band has been cached or the cached band's lower bound is -1
(indistinguishable from the cache-empty marker). -/
theorem adjust_als_thresholds_cache_policy (s : AlsState) (lower upper : Int)
    (hpath : s.threshold_path_present = true) :
    (∃ l u, (adjust_als_thresholds s lower upper).2 = [Effect.thresholdWrite l u] ∧
      (((l = 0 ∧ u = 0) ∨ (l = 0 ∧ u = 65535)) →
        (adjust_als_thresholds s lower upper).1.cached_lower = s.cached_lower ∧
        (adjust_als_thresholds s lower upper).1.cached_upper = s.cached_upper) ∧
      (¬ (l = 0 ∧ u = 0) ∧ ¬ (l = 0 ∧ u = 65535) →
        (adjust_als_thresholds s lower upper).1.cached_lower = l ∧
        (adjust_als_thresholds s lower upper).1.cached_upper = u)) ∧
    (lower = -1 ∧ upper = -1 →
      (adjust_als_thresholds s lower upper).2 =
        [if s.cached_lower = -1 then Effect.thresholdWrite 0 0
         else Effect.thresholdWrite s.cached_lower s.cached_upper]) := by
  unfold adjust_als_thresholds
  rw [if_neg (by simp [hpath])]
  by_cases h1 : lower > upper ∨ (lower = upper ∧ lower = 0)
  · rw [if_pos h1]
    refine ⟨⟨0, 0, rfl, fun _ => ⟨rfl, rfl⟩, fun hc => absurd ⟨rfl, rfl⟩ hc.1⟩, ?_⟩
    rintro ⟨hl, hu⟩
    rcases h1 with h | ⟨h, h'⟩ <;> omega
  · rw [if_neg h1]
    by_cases h2 : lower = upper ∧ lower = -1
    · rw [if_pos h2]
      by_cases h3 : s.cached_lower = -1
      · rw [if_pos h3]
        exact ⟨⟨0, 0, rfl, fun _ => ⟨rfl, rfl⟩, fun hc => absurd ⟨rfl, rfl⟩ hc.1⟩,
          fun _ => by rw [if_pos h3]⟩
      · rw [if_neg h3]
        exact ⟨⟨s.cached_lower, s.cached_upper, rfl, fun _ => ⟨rfl, rfl⟩,
          fun _ => ⟨rfl, rfl⟩⟩, fun _ => by rw [if_neg h3]⟩
    · rw [if_neg h2]
      by_cases h4 : lower = 0 ∧ upper = 65535
      · rw [if_pos h4]
        refine ⟨⟨lower, upper, rfl, fun _ => ⟨rfl, rfl⟩, fun hc => absurd h4 hc.2⟩, ?_⟩
        rintro ⟨hl, hu⟩
        exact absurd h4.1 (by omega)
      · rw [if_neg h4]
        refine ⟨⟨lower, upper, rfl, fun hc => ?_, fun _ => ⟨rfl, rfl⟩⟩, ?_⟩
        · rcases hc with ⟨hl, hu⟩ | ⟨hl, hu⟩
          · exact absurd (Or.inr ⟨by omega, hl⟩) h1
          · exact absurd ⟨hl, hu⟩ h4
        · rintro ⟨hl, hu⟩
          exact absurd ⟨by omega, hl⟩ h2

/-- Witness instantiating `adjust_als_thresholds_cache_policy` at the
concrete (-1,-1) restore request on the pristine cache. -/
theorem adjust_als_thresholds_cache_policy_witness :
    s4w.threshold_path_present = true ∧
    (adjust_als_thresholds s4w (-1) (-1)).2 =
      [if s4w.cached_lower = -1 then Effect.thresholdWrite 0 0
       else Effect.thresholdWrite s4w.cached_lower s4w.cached_upper] :=
  ⟨rfl, (adjust_als_thresholds_cache_policy s4w (-1) (-1) rfl).2 ⟨rfl, rfl⟩⟩

/-- State for the C5 counterexample: threshold path present, no owners. -/
def s5w : AlsState := { initState with threshold_path_present := true }

/-- C5 is false as stated: after requester R1 has enabled the ALS (refcount
1), a second enable request from R1 leaves the refcount at 1 — not a 0-to-1
transition — yet the band (0,0) is written again, because the callback
tests `als_external_refcount == 1` after the idempotent monitor add. -/
theorem als_enable_repeat_writes_band :
    (als_enable_req_dbus_cb s5w (some "R1")).1.als_external_refcount = 1 ∧
    (als_enable_req_dbus_cb (als_enable_req_dbus_cb s5w (some "R1")).1
      (some "R1")).1.als_external_refcount = 1 ∧
    (als_enable_req_dbus_cb (als_enable_req_dbus_cb s5w (some "R1")).1
      (some "R1")).2 = [Effect.thresholdWrite 0 0] := by decide

/-- C5 (corrected): with the threshold path present, an enable request
writes the band (0,0) exactly when the (idempotent) monitor add succeeds
with a resulting refcount of 1 — which covers the 0-to-1 transition but
also a repeated enable by the sole owner; a disable request or an owner
disappearance issues the (-1,-1) restore request exactly when the monitor
removal succeeds with a resulting refcount of 0; in every other case no
band is written. -/
theorem als_refcount_transition_bands (s : AlsState) (snd old_name : String)
    (hpath : s.threshold_path_present = true) :
    ((mce_dbus_owner_monitor_add s.als_owner_monitor_list snd 16).1 = 1 →
      (als_enable_req_dbus_cb s (some snd)).2 = [Effect.thresholdWrite 0 0] ∧
      (als_enable_req_dbus_cb s (some snd)).1.als_external_refcount = 1) ∧
    (∀ c, (mce_dbus_owner_monitor_add s.als_owner_monitor_list snd 16).1 = c →
      c ≠ 1 → (als_enable_req_dbus_cb s (some snd)).2 = []) ∧
    ((mce_dbus_owner_monitor_remove s.als_owner_monitor_list snd).1 = 0 →
      (als_disable_req_dbus_cb s (some snd)).2 =
        (adjust_als_thresholds s (-1) (-1)).2) ∧
    (∀ c, (mce_dbus_owner_monitor_remove s.als_owner_monitor_list snd).1 = c →
      c ≠ 0 → (als_disable_req_dbus_cb s (some snd)).2 = []) ∧
    ((mce_dbus_owner_monitor_remove s.als_owner_monitor_list old_name).1 = 0 →
      (als_owner_monitor_dbus_cb s old_name).2 =
        (adjust_als_thresholds s (-1) (-1)).2) ∧
    (∀ c, (mce_dbus_owner_monitor_remove s.als_owner_monitor_list old_name).1 = c →
      c ≠ 0 → (als_owner_monitor_dbus_cb s old_name).2 = []) := by
  refine ⟨?_, ?_, ?_, ?_, ?_, ?_⟩
  · intro h1
    simp only [als_enable_req_dbus_cb, h1]
    norm_num [adjust_als_thresholds, hpath]
  · intro c hc hne
    have hcnn : c = -1 ∨ 0 ≤ c := by
      unfold mce_dbus_owner_monitor_add at hc
      split_ifs at hc <;> omega
    simp only [als_enable_req_dbus_cb, hc]
    by_cases hm : c = -1
    · rw [if_pos hm]
    · rw [if_neg hm]
      have : c.toNat ≠ 1 := by omega
      rw [if_neg this]
  · intro h0
    simp only [als_disable_req_dbus_cb, h0]
    norm_num [adjust_als_thresholds]
    split_ifs <;> rfl
  · intro c hc hne
    have hcnn : c = -1 ∨ 0 ≤ c := by
      unfold mce_dbus_owner_monitor_remove at hc
      split_ifs at hc <;> omega
    simp only [als_disable_req_dbus_cb, hc]
    by_cases hm : c = -1
    · rw [if_pos hm]
    · rw [if_neg hm]
      have : c.toNat ≠ 0 := by omega
      rw [if_neg this]
  · intro h0
    simp only [als_owner_monitor_dbus_cb, h0]
    norm_num [adjust_als_thresholds]
    split_ifs <;> rfl
  · intro c hc hne
    have hcnn : c = -1 ∨ 0 ≤ c := by
      unfold mce_dbus_owner_monitor_remove at hc
      split_ifs at hc <;> omega
    simp only [als_owner_monitor_dbus_cb, hc]
    by_cases hm : c = -1
    · rw [if_pos hm]
    · rw [if_neg hm]
      have : c.toNat ≠ 0 := by omega
      rw [if_neg this]

/-- Witness instantiating `als_refcount_transition_bands`: a repeated
enable by the sole owner R1 yields monitor-add result 1 and the (0,0)
write. -/
def s5x : AlsState := { initState with
  threshold_path_present := true,
  als_owner_monitor_list := ["R1"],
  als_external_refcount := 1 }

/-- Witness for `als_refcount_transition_bands` (see `s5x`). -/
theorem als_refcount_transition_bands_witness :
    (mce_dbus_owner_monitor_add s5x.als_owner_monitor_list "R1" 16).1 = 1 ∧
    (als_enable_req_dbus_cb s5x (some "R1")).2 = [Effect.thresholdWrite 0 0] :=
  ⟨by decide, ((als_refcount_transition_bands s5x "R1" "R1" rfl).1 (by decide)).1⟩

/-- Recogniser for threshold-band writes among the effects. -/
def isThresholdWrite : Effect → Bool
  | Effect.thresholdWrite _ _ => true
  | _ => false

theorem display_brightness_filter_refcount (s : AlsState) :
    (display_brightness_filter s).1.als_external_refcount = s.als_external_refcount := by
  unfold display_brightness_filter
  split
  · rfl
  · split <;> try rfl
    split <;> rfl

theorem led_brightness_filter_refcount (s : AlsState) :
    (led_brightness_filter s).1.als_external_refcount = s.als_external_refcount := by
  unfold led_brightness_filter
  split <;> try rfl
  split <;> rfl

theorem key_backlight_filter_refcount (s : AlsState) :
    (key_backlight_filter s).1.als_external_refcount = s.als_external_refcount := by
  unfold key_backlight_filter
  split <;> try rfl
  split <;> rfl

theorem exec_brightness_pipes_refcount (s : AlsState) :
    (exec_brightness_pipes s).1.als_external_refcount = s.als_external_refcount := by
  simp only [exec_brightness_pipes]
  rw [key_backlight_filter_refcount, led_brightness_filter_refcount,
    display_brightness_filter_refcount]

theorem cpa_adjust_state (s : AlsState) : (cpa_adjust s).1 = s := by
  unfold cpa_adjust
  split <;> try rfl
  split <;> rfl

theorem exec_brightness_pipes_no_threshold (s : AlsState) :
    (exec_brightness_pipes s).2.any isThresholdWrite = false := by
  unfold exec_brightness_pipes
  simp [isThresholdWrite]

theorem cpa_adjust_no_threshold (s : AlsState) :
    (cpa_adjust s).2.any isThresholdWrite = false := by
  unfold cpa_adjust
  split
  · rfl
  · split
    · rfl
    · simp [isThresholdWrite]

theorem lux_update_tail_no_threshold (s : AlsState)
    (h : s.als_external_refcount ≠ 0) :
    (lux_update_tail s).2.any isThresholdWrite = false := by
  unfold lux_update_tail
  simp only
  rw [if_neg (by rw [cpa_adjust_state, exec_brightness_pipes_refcount]; exact h)]
  simp [List.any_append, exec_brightness_pipes_no_threshold, cpa_adjust_no_threshold]

theorem als_median_filter_map_refcount (s : AlsState) (v : Int) :
    (als_median_filter_map s v).1.als_external_refcount = s.als_external_refcount := by
  unfold als_median_filter_map
  split <;> rfl

theorem als_read_value_filtered_refcount (s : AlsState) (raw : Option Int) :
    (als_read_value_filtered s raw).1.als_external_refcount =
      s.als_external_refcount := by
  unfold als_read_value_filtered
  split
  · rfl
  · split
    · rfl
    · apply als_median_filter_map_refcount

theorem cancel_brightness_delay_timer_refcount (s : AlsState) :
    (cancel_brightness_delay_timer s).als_external_refcount =
      s.als_external_refcount := by
  unfold cancel_brightness_delay_timer
  split <;> rfl

/-- C6 (corrected, lux-update paths): while the external refcount is
non-zero, neither the poll-timer path (`als_poll_timer_cb`) nor the
I/O-monitor path (`als_iomon_common`) ever emits a threshold-band write —
for any state and any incoming reading.  (The display-state-transition path
is NOT suppressed; see `display_state_trigger_writes_despite_refcount`.) -/
theorem lux_paths_suppressed (s : AlsState) (raw : Option Int) (lux : Int) (nd : Bool)
    (h : s.als_external_refcount ≠ 0) :
    (als_poll_timer_cb s raw).2.1.any isThresholdWrite = false ∧
    (als_iomon_common s lux nd).2.any isThresholdWrite = false := by
  constructor
  · unfold als_poll_timer_cb
    simp only
    split
    · rfl
    · split
      · rfl
      · apply lux_update_tail_no_threshold
        show (als_read_value_filtered s raw).1.als_external_refcount ≠ 0
        rw [als_read_value_filtered_refcount]
        exact h
  · unfold als_iomon_common
    simp only
    split
    · rfl
    · split
      · rfl
      · split
        · split
          · apply lux_update_tail_no_threshold
            show (als_median_filter_map s lux).1.als_external_refcount ≠ 0
            rw [als_median_filter_map_refcount]
            exact h
          · split
            · rfl
            · rfl
        · apply lux_update_tail_no_threshold
          show (cancel_brightness_delay_timer
            (als_median_filter_map s lux).1).als_external_refcount ≠ 0
          rw [cancel_brightness_delay_timer_refcount, als_median_filter_map_refcount]
          exact h

/-- Witness instantiating `lux_paths_suppressed` at a concrete state with
refcount 1 and a concrete reading. -/
def s6r : AlsState := { initState with als_external_refcount := 1 }

/-- Witness for `lux_paths_suppressed` (see `s6r`). -/
theorem lux_paths_suppressed_witness :
    s6r.als_external_refcount ≠ 0 ∧
    ((als_poll_timer_cb s6r (some 5)).2.1.any isThresholdWrite = false ∧
     (als_iomon_common s6r 5 false).2.any isThresholdWrite = false) :=
  ⟨by decide, lux_paths_suppressed s6r (some 5) 5 false (by decide)⟩

/-- State for the C6 counterexample: external refcount 1, display on. -/
def s6w : AlsState := { initState with
  als_external_refcount := 1,
  threshold_path_present := true,
  old_display_state := MceDisplayState.on }

/-- C6 is false as stated: with the external refcount at 1, the
display-state-transition path (display on to off) still writes the
threshold band (0, 65535) — `display_state_trigger` performs its
`adjust_als_thresholds` calls without consulting the refcount. -/
theorem display_state_trigger_writes_despite_refcount :
    s6w.als_external_refcount ≠ 0 ∧
    (display_state_trigger s6w MceDisplayState.off none).2 =
      [Effect.thresholdWrite 0 65535] := by decide

/-- The display consumer's interrupt band (always part of the union). -/
def displayBand (s : AlsState) : Int × Int :=
  (s.display_brightness_lower, s.display_brightness_upper)

/-- The bands of all active consumers, in source order: the display band,
then the LED and keyboard bands when their profile tables are configured. -/
def activeBands (s : AlsState) : List (Int × Int) :=
  displayBand s ::
    ((if s.led_als_profiles.isSome then
        [(s.led_brightness_lower, s.led_brightness_upper)] else []) ++
     (if s.kbd_als_profiles.isSome then
        [(s.kbd_brightness_lower, s.kbd_brightness_upper)] else []))

/-- Merging two bands: max of the lower bounds, min of the upper bounds. -/
def mergePair (a b : Int × Int) : Int × Int := (max a.1 b.1, min a.2 b.2)

theorem mergePair_right_comm (b a c : Int × Int) :
    mergePair (mergePair b a) c = mergePair (mergePair b c) a := by
  simp [mergePair, sup_right_comm, inf_right_comm]

theorem foldl_mergePair_perm {l1 l2 : List (Int × Int)} (h : l1.Perm l2) :
    ∀ b, l1.foldl mergePair b = l2.foldl mergePair b := by
  induction h with
  | nil => intro b; rfl
  | cons x h ih => intro b; simp only [List.foldl_cons]; exact ih _
  | swap x y l => intro b; simp only [List.foldl_cons]; rw [mergePair_right_comm]
  | trans h1 h2 ih1 ih2 => intro b; rw [ih1, ih2]

/-- C7: the system-wide threshold band computed by the lux-update paths
(`merge_lower`, `merge_upper` — the sequential MAX/MIN block of
`als_poll_timer_cb` and `als_iomon_common`) equals the max-of-lowers /
min-of-uppers merge of the active consumers' bands folded in ANY order:
for every permutation of the active band list the fold gives the same
`(lower, upper)` pair, the one the code writes. -/
theorem threshold_union_order_indep (s : AlsState) (bands : List (Int × Int))
    (h : bands.Perm (activeBands s)) :
    bands.foldl mergePair (displayBand s) = (merge_lower s, merge_upper s) := by
  rw [foldl_mergePair_perm h]
  unfold activeBands displayBand merge_lower merge_upper
  by_cases hl : s.led_als_profiles.isSome <;> by_cases hk : s.kbd_als_profiles.isSome <;>
    simp [hl, hk, mergePair, max_self, min_self]

/-- Witness state for `threshold_union_order_indep`: all three consumers
active with distinct bands. -/
def s7w : AlsState := { initState with
  led_als_profiles := some [pC1],
  kbd_als_profiles := some [pC1],
  display_brightness_lower := 10,
  display_brightness_upper := 400,
  led_brightness_lower := 30,
  led_brightness_upper := 300,
  kbd_brightness_lower := 20,
  kbd_brightness_upper := 500 }

/-- Witness for `threshold_union_order_indep`: folding the bands in the
order keyboard, display, LED yields the code's merged pair. -/
theorem threshold_union_order_indep_witness :
    [((20 : Int), (500 : Int)), (10, 400), (30, 300)].Perm (activeBands s7w) ∧
    [((20 : Int), (500 : Int)), (10, 400), (30, 300)].foldl mergePair
      (displayBand s7w) = (merge_lower s7w, merge_upper s7w) :=
  ⟨by decide, threshold_union_order_indep s7w _ (by decide)⟩

/-- The timer/lux observables untouched by the re-filtering tail. -/
def delayObs (s : AlsState) : Int × Bool × Bool × Int :=
  (s.als_lux, s.delay_timer_id_set, s.delay_timer_scheduled, s.delayed_lux)

theorem display_brightness_filter_delayObs (s : AlsState) :
    delayObs (display_brightness_filter s).1 = delayObs s := by
  unfold display_brightness_filter
  split
  · rfl
  · split <;> try rfl
    split <;> rfl

theorem led_brightness_filter_delayObs (s : AlsState) :
    delayObs (led_brightness_filter s).1 = delayObs s := by
  unfold led_brightness_filter
  split <;> try rfl
  split <;> rfl

theorem key_backlight_filter_delayObs (s : AlsState) :
    delayObs (key_backlight_filter s).1 = delayObs s := by
  unfold key_backlight_filter
  split <;> try rfl
  split <;> rfl

theorem exec_brightness_pipes_delayObs (s : AlsState) :
    delayObs (exec_brightness_pipes s).1 = delayObs s := by
  simp only [exec_brightness_pipes]
  rw [key_backlight_filter_delayObs, led_brightness_filter_delayObs,
    display_brightness_filter_delayObs]

theorem adjust_als_thresholds_delayObs (s : AlsState) (lower upper : Int) :
    delayObs (adjust_als_thresholds s lower upper).1 = delayObs s := by
  unfold adjust_als_thresholds
  split_ifs <;> rfl

theorem lux_update_tail_delayObs (s : AlsState) :
    delayObs (lux_update_tail s).1 = delayObs s := by
  unfold lux_update_tail
  simp only
  rw [cpa_adjust_state]
  split
  · rw [adjust_als_thresholds_delayObs, exec_brightness_pipes_delayObs]
  · exact exec_brightness_pipes_delayObs s

theorem lux_update_tail_als_lux (s : AlsState) :
    (lux_update_tail s).1.als_lux = s.als_lux :=
  congrArg Prod.fst (lux_update_tail_delayObs s)

theorem lux_update_tail_delay_id (s : AlsState) :
    (lux_update_tail s).1.delay_timer_id_set = s.delay_timer_id_set :=
  congrArg (fun t => t.2.1) (lux_update_tail_delayObs s)

/-- A step-down sample with the delay in force either arms the timer (id
clear) or merely overwrites the pending lux value (id set). -/
theorem stepdown_arm_or_update (t : AlsState) (L : Int)
    (hmed : t.use_median_filter = false) (hprox : t.proximity_closed = false)
    (hstep : L < t.als_lux) (hL : L ≠ -1) :
    als_iomon_common t L false =
      (if t.delay_timer_id_set then ({ t with delayed_lux := L }, [])
       else ({ t with
                delay_timer_id_set := true,
                delay_timer_scheduled := true,
                delayed_lux := L }, [])) := by
  have hmap : als_median_filter_map t L = (t, L) := by
    simp [als_median_filter_map, hmed]
  simp only [als_iomon_common, hmap]
  rw [if_neg (by rintro (h | ⟨h, _⟩) <;> omega), if_neg (by simp [hprox]),
    if_pos (show t.als_lux > L from hstep), if_neg (by simp)]
  by_cases hid : t.delay_timer_id_set <;> simp [hid]

/-- A step-down sample with the delay suppressed clears the timer id,
stores the new lux and runs the re-filtering tail. -/
theorem stepdown_fire (t : AlsState) (L : Int)
    (hmed : t.use_median_filter = false) (hprox : t.proximity_closed = false)
    (hstep : L < t.als_lux) (hL : L ≠ -1) :
    als_iomon_common t L true =
      lux_update_tail { t with delay_timer_id_set := false, als_lux := L } := by
  have hmap : als_median_filter_map t L = (t, L) := by
    simp [als_median_filter_map, hmed]
  simp only [als_iomon_common, hmap]
  rw [if_neg (by rintro (h | ⟨h, _⟩) <;> omega), if_neg (by simp [hprox]),
    if_pos (show t.als_lux > L from hstep), if_pos (by simp)]

/-- C8: from a state with no step-down timer pending and cached lux P,
two step-down samples L1 then L2 (L2 < L1 < P) arm exactly one one-shot
timer: the first event arms the timer and records L1, the second event
changes NOTHING but the pending lux value (same timer, no new arm), and
when the timer fires the re-evaluation runs with the delay suppressed and
stores L2 as the new cached lux, clearing the timer id. -/
theorem stepdown_coalescing (s : AlsState) (P L1 L2 : Int)
    (hmed : s.use_median_filter = false)
    (hid : s.delay_timer_id_set = false)
    (hprox : s.proximity_closed = false)
    (hlux : s.als_lux = P)
    (h1 : L1 < P) (h2 : L2 < L1) (hL1 : L1 ≠ -1) (hL2 : L2 ≠ -1) :
    als_iomon_common s L1 false =
      ({ s with
          delay_timer_id_set := true,
          delay_timer_scheduled := true,
          delayed_lux := L1 }, []) ∧
    als_iomon_common { s with
        delay_timer_id_set := true,
        delay_timer_scheduled := true,
        delayed_lux := L1 } L2 false =
      ({ s with
          delay_timer_id_set := true,
          delay_timer_scheduled := true,
          delayed_lux := L2 }, []) ∧
    (brightness_delay_timer_cb { s with
        delay_timer_id_set := true,
        delay_timer_scheduled := true,
        delayed_lux := L2 }).1.als_lux = L2 ∧
    (brightness_delay_timer_cb { s with
        delay_timer_id_set := true,
        delay_timer_scheduled := true,
        delayed_lux := L2 }).1.delay_timer_id_set = false ∧
    (brightness_delay_timer_cb { s with
        delay_timer_id_set := true,
        delay_timer_scheduled := true,
        delayed_lux := L2 }).1.delay_timer_scheduled = false := by
  refine ⟨?_, ?_, ?_, ?_, ?_⟩
  · rw [stepdown_arm_or_update s L1 hmed hprox (by omega) hL1]
    simp [hid]
  · rw [stepdown_arm_or_update { s with
        delay_timer_id_set := true,
        delay_timer_scheduled := true,
        delayed_lux := L1 } L2 hmed hprox (by show L2 < s.als_lux; omega) hL2]
    rfl
  · show (als_iomon_common { s with
        delay_timer_id_set := true,
        delay_timer_scheduled := true,
        delayed_lux := L2 } L2 true).1.als_lux = L2
    rw [stepdown_fire { s with
        delay_timer_id_set := true,
        delay_timer_scheduled := true,
        delayed_lux := L2 } L2 hmed hprox (by show L2 < s.als_lux; omega) hL2,
      lux_update_tail_als_lux]
  · show (als_iomon_common { s with
        delay_timer_id_set := true,
        delay_timer_scheduled := true,
        delayed_lux := L2 } L2 true).1.delay_timer_id_set = false
    rw [stepdown_fire { s with
        delay_timer_id_set := true,
        delay_timer_scheduled := true,
        delayed_lux := L2 } L2 hmed hprox (by show L2 < s.als_lux; omega) hL2,
      lux_update_tail_delay_id]
  · rfl


/-- Witness state for `stepdown_coalescing`: cached lux 100, no timer. -/
def s8w : AlsState := { initState with als_lux := 100 }

/-- Witness for `stepdown_coalescing` at P=100, L1=50, L2=30: after the
coalesced events, the timer fire applies lux 30. -/
theorem stepdown_coalescing_witness :
    (brightness_delay_timer_cb { s8w with
        delay_timer_id_set := true,
        delay_timer_scheduled := true,
        delayed_lux := 30 }).1.als_lux = 30 :=
  (stepdown_coalescing s8w 100 50 30 rfl rfl rfl rfl (by decide) (by decide)
    (by decide) (by decide)).2.2.1

theorem isUnblanked_not_isBlanked (x : MceDisplayState)
    (h : isUnblanked x = true) : isBlanked x = false := by
  cases x <;> simp_all [isUnblanked, isBlanked]

theorem setup_als_poll_timer_delayObs (s : AlsState) :
    delayObs (setup_als_poll_timer s) = delayObs s := by
  unfold setup_als_poll_timer cancel_als_poll_timer
  split
  · rfl
  · split <;> try rfl
    all_goals split <;> rfl

/-- C9 (corrected): when the display leaves an on/dim state for an
off/low-power state (ALS enabled, threshold path present), the band
(0, 65535) is written regardless of the pending lux value — but the pending
step-down delay timer is NOT canceled: the timer id, the armed source and
the pending lux value are all left exactly as they were
(`display_state_trigger` never calls `cancel_brightness_delay_timer`). -/
theorem display_blank_writes_disable_band (s : AlsState) (d : MceDisplayState)
    (hen : s.als_enabled = true)
    (hpath : s.threshold_path_present = true)
    (hold : isUnblanked s.old_display_state = true)
    (hnew : isBlanked d = true) :
    (display_state_trigger s d none).2 = [Effect.thresholdWrite 0 65535] ∧
    (display_state_trigger s d none).1.delay_timer_id_set = s.delay_timer_id_set ∧
    (display_state_trigger s d none).1.delay_timer_scheduled =
      s.delay_timer_scheduled ∧
    (display_state_trigger s d none).1.delayed_lux = s.delayed_lux := by
  have hnoton : ¬ (d = MceDisplayState.on ∨ d = MceDisplayState.dim) := by
    cases d <;> simp_all [isBlanked]
  have hbold : isBlanked s.old_display_state = false :=
    isUnblanked_not_isBlanked _ hold
  unfold display_state_trigger
  rw [if_neg (by simp [hen])]
  simp only
  rw [if_neg (by rintro ⟨hb, hon⟩; rw [hbold] at hb; exact absurd hb (by simp)),
    if_pos ⟨hold, hnew⟩]
  unfold adjust_als_thresholds
  rw [if_neg (by simp [hpath]), if_neg (by norm_num), if_neg (by norm_num),
    if_pos (by norm_num)]
  refine ⟨rfl, ?_, ?_, ?_⟩
  · simp only
    split
    · exact congrArg (fun x => x.2.1) (setup_als_poll_timer_delayObs _)
    · rfl
  · simp only
    split
    · exact congrArg (fun x => x.2.2.1) (setup_als_poll_timer_delayObs _)
    · rfl
  · simp only
    split
    · exact congrArg (fun x => x.2.2.2) (setup_als_poll_timer_delayObs _)
    · rfl

/-- The observables of the lux path untouched by a dropped sample. -/
def filterObs (s : AlsState) : Int × Int × Int × Int × Int × Int :=
  (s.als_lux, s.display_als_level, s.led_als_level, s.kbd_als_level,
   s.cached_lower, s.cached_upper)

theorem als_median_filter_map_filterObs (s : AlsState) (v : Int) :
    filterObs (als_median_filter_map s v).1 = filterObs s := by
  unfold als_median_filter_map
  split <;> rfl

theorem als_median_filter_map_proximity (s : AlsState) (v : Int) :
    (als_median_filter_map s v).1.proximity_closed = s.proximity_closed := by
  unfold als_median_filter_map
  split <;> rfl

/-- C10: whenever the proximity sensor reports cover-closed, a lux sample
arriving at `als_iomon_common` is dropped after the median-filter step: the
result state is exactly the post-median state — so the cached lux, the
per-consumer levels and the cached threshold band are unchanged — and no
effects at all are produced (no datapipe re-filtering, no threshold
write). -/
theorem proximity_drop (s : AlsState) (lux : Int) (nd : Bool)
    (h : s.proximity_closed = true) :
    als_iomon_common s lux nd = ((als_median_filter_map s lux).1, []) ∧
    (als_iomon_common s lux nd).1.als_lux = s.als_lux ∧
    (als_iomon_common s lux nd).1.display_als_level = s.display_als_level ∧
    (als_iomon_common s lux nd).1.led_als_level = s.led_als_level ∧
    (als_iomon_common s lux nd).1.kbd_als_level = s.kbd_als_level ∧
    (als_iomon_common s lux nd).1.cached_lower = s.cached_lower ∧
    (als_iomon_common s lux nd).1.cached_upper = s.cached_upper ∧
    (als_iomon_common s lux nd).2 = [] := by
  have hmain : als_iomon_common s lux nd = ((als_median_filter_map s lux).1, []) := by
    unfold als_iomon_common
    simp only
    split
    · rfl
    · rw [if_pos (by rw [als_median_filter_map_proximity, h])]
  refine ⟨hmain, ?_, ?_, ?_, ?_, ?_, ?_, by rw [hmain]⟩ <;> rw [hmain]
  · exact congrArg (fun t => t.1) (als_median_filter_map_filterObs s lux)
  · exact congrArg (fun t => t.2.1) (als_median_filter_map_filterObs s lux)
  · exact congrArg (fun t => t.2.2.1) (als_median_filter_map_filterObs s lux)
  · exact congrArg (fun t => t.2.2.2.1) (als_median_filter_map_filterObs s lux)
  · exact congrArg (fun t => t.2.2.2.2.1) (als_median_filter_map_filterObs s lux)
  · exact congrArg (fun t => t.2.2.2.2.2) (als_median_filter_map_filterObs s lux)


/-- State and witness for `display_blank_writes_disable_band`. -/
def s9r : AlsState := { initState with
  threshold_path_present := true,
  old_display_state := MceDisplayState.on }

/-- Witness for `display_blank_writes_disable_band` at a concrete blank
transition. -/
theorem display_blank_writes_disable_band_witness :
    s9r.als_enabled = true ∧ isUnblanked s9r.old_display_state = true ∧
    isBlanked MceDisplayState.off = true ∧
    (display_state_trigger s9r MceDisplayState.off none).2 =
      [Effect.thresholdWrite 0 65535] :=
  ⟨rfl, rfl, rfl,
   (display_blank_writes_disable_band s9r MceDisplayState.off rfl rfl rfl rfl).1⟩

/-- State for the C9 counterexample: a step-down delay timer is pending
(pending lux 42) when the display blanks. -/
def s9w : AlsState := { initState with
  threshold_path_present := true,
  old_display_state := MceDisplayState.on,
  delay_timer_id_set := true,
  delay_timer_scheduled := true,
  delayed_lux := 42 }

/-- C9 is false as stated: on the on-to-off transition with a pending
step-down timer, the band (0, 65535) is written but the timer is NOT
canceled — it stays armed with its id set and pending lux intact. -/
theorem display_blank_timer_not_canceled :
    s9w.delay_timer_scheduled = true ∧
    (display_state_trigger s9w MceDisplayState.off none).2 =
      [Effect.thresholdWrite 0 65535] ∧
    (display_state_trigger s9w MceDisplayState.off none).1.delay_timer_scheduled
      = true ∧
    (display_state_trigger s9w MceDisplayState.off none).1.delay_timer_id_set
      = true := by decide

/-- Witness state for `proximity_drop`: cover closed, cached lux 100. -/
def s10w : AlsState := { initState with
  proximity_closed := true,
  als_lux := 100 }

/-- Witness for `proximity_drop` at a concrete sample. -/
theorem proximity_drop_witness :
    s10w.proximity_closed = true ∧
    (als_iomon_common s10w 7 false = ((als_median_filter_map s10w 7).1, []) ∧
     (als_iomon_common s10w 7 false).1.als_lux = s10w.als_lux ∧
     (als_iomon_common s10w 7 false).1.display_als_level = s10w.display_als_level ∧
     (als_iomon_common s10w 7 false).1.led_als_level = s10w.led_als_level ∧
     (als_iomon_common s10w 7 false).1.kbd_als_level = s10w.kbd_als_level ∧
     (als_iomon_common s10w 7 false).1.cached_lower = s10w.cached_lower ∧
     (als_iomon_common s10w 7 false).1.cached_upper = s10w.cached_upper ∧
     (als_iomon_common s10w 7 false).2 = []) :=
  ⟨rfl, proximity_drop s10w 7 false rfl⟩
